import Mathlib

/-!
Shallow embedding of the loan/EMI scheduling and overdue-accrual engine of the
loan_app_backend repository.

Conventions of the embedding:
* Dates are modelled at day granularity as integers (days since an arbitrary
  epoch).  Every date the engine stores or compares is first normalized to
  local midnight by `setHours(0,0,0,0)` in the source, and the engine's only
  date arithmetic is whole-day differences
  (`Math.floor(diffMs / (24*60*60*1000))`) and whole-day offsets
  (`setDate(getDate() + k)`), so a midnight-normalized date is faithfully one
  integer.  DST shifts are not modelled (with DST the millisecond difference
  of two local midnights can differ from a multiple of 24h; the source's
  `daysOverdue <= 0` guard for that edge is kept).
* Currency amounts are natural numbers (the application validates loan
  amounts as integers in [1000, 100000] before the engine runs; all derived
  per-day amounts are produced by `Math.ceil` on nonnegative values).
  `loan.amount` is an `Int` so that the documented `amount < 0` validation
  error is expressible.
* `Math.ceil(a / b)` on nonnegative integers `a`, `b ≥ 1` is `cdiv a b`
  below.  `Math.ceil(amount * 0.20 / totalDays)` is embedded as
  `cdiv amount (5 * totalDays)`: for integer `0 ≤ amount ≤ 100000` the
  double-precision product `amount * 0.2` rounds to a value whose distance
  from the rational `amount / 5` is far smaller than the distance from
  `amount / (5 * totalDays)` (denominator ≤ 5·365) to any other integer, and
  when `amount` is a multiple of 5 the product rounds to exactly `amount / 5`,
  so the floating-point ceiling agrees with the exact rational ceiling
  throughout the validated range.
* The Mongo stores are a `Store`: a list of EMI documents and a list of loan
  documents.  `Model.find(filter)` is a list filter, `doc.save()` replaces
  the document in the list, `findByIdAndUpdate(id, {$inc : ...})` maps over
  the loan list.  Mongoose's `doc.isModified('status')` is true exactly when
  an assignment changed the stored value, which for the single assignment
  `emi.status = 'overdue'` means the loaded status was not `overdue`.
-/

namespace LoanApp

/-- Ceiling division on naturals: `Math.ceil(a / b)` for `0 ≤ a`, `1 ≤ b`. -/
def cdiv (a b : Nat) : Nat := (a + b - 1) / b

/-- EMI lifecycle states (`status` enum of the EMI schema). -/
inductive EMIStatus where
  | pending
  | overdue
  | paid
  deriving DecidableEq, Inhabited

/-- Loan lifecycle states (`status` enum of the Loan schema). -/
inductive LoanStatus where
  | pending
  | approved
  | rejected
  | completed
  deriving DecidableEq, Inhabited

/-- One EMI (daily installment) document. -/
structure EMI where
  emiId : Nat
  loanId : Nat
  dayNumber : Nat
  principalAmount : Nat
  interestAmount : Nat
  penaltyAmount : Nat
  totalAmount : Nat
  dueDate : Int
  status : EMIStatus
  paymentRequested : Bool := false
  paidViaRequest : Bool := false
  requestCanceled : Bool := false
  paidAt : Option Int := none
  deriving DecidableEq, Inhabited

/-- One loan document (the fields the scheduling/accrual engine touches). -/
structure Loan where
  loanId : Nat
  amount : Int
  totalDays : Nat
  status : LoanStatus
  startDate : Option Int := none
  endDate : Option Int := none
  approvedAt : Option Int := none
  totalPaid : Nat := 0
  remainingBalance : Int := 0
  penaltyAmount : Int := 0
  deriving DecidableEq, Inhabited

/-- The persistent stores: the EMI collection and the Loan collection. -/
structure Store where
  emis : List EMI
  loans : List Loan
  deriving DecidableEq, Inhabited

/-- Result of `generateEMISchedule`: the inserted EMIs and the saved loan. -/
structure GenResult where
  emis : List EMI
  loan : Loan
  deriving DecidableEq

/-- Modelled from the spec: the repository's Mongoose schema files
(`src/models/Loan.js`, `src/models/EMI.js`) are not under `src/`, and §4.1 of
the spec states that schedule generation "fails with ValidationError if
totalDays < 1 or amount < 0" and performs no writes in that case; the leading
guard below models that missing schema validation.  Everything after the
guard is `generateEMISchedule` from `src/unnamed/part_001` lines 9–51:
`startDate` is tomorrow (`today + 1`) at midnight, `dailyPrincipal =
Math.ceil(amount / totalDays)`, `dailyInterest = Math.ceil(amount * 0.20 /
totalDays)`, one pending EMI per day `1..totalDays` with `dueDate = startDate
+ (day − 1)`, then the loan is saved with `startDate`, `endDate = startDate +
totalDays − 1` and `approvedAt` set.  `today` is the (injected) current day. -/
def generateEMISchedule (today : Int) (loan : Loan) : Except String GenResult :=
  if loan.totalDays < 1 ∨ loan.amount < 0 then
    Except.error "ValidationError"
  else
    let startDate : Int := today + 1
    let a : Nat := loan.amount.toNat
    let dailyPrincipal : Nat := cdiv a loan.totalDays
    let dailyInterest : Nat := cdiv a (5 * loan.totalDays)
    let emis : List EMI := (List.range loan.totalDays).map (fun k =>
      { emiId := k + 1
        loanId := loan.loanId
        dayNumber := k + 1
        principalAmount := dailyPrincipal
        interestAmount := dailyInterest
        penaltyAmount := 0
        totalAmount := dailyPrincipal + dailyInterest
        dueDate := startDate + (k : Int)
        status := EMIStatus.pending })
    Except.ok
      { emis := emis
        loan := { loan with
                  startDate := some startDate
                  endDate := some (startDate + ((loan.totalDays - 1 : Nat) : Int))
                  approvedAt := some today } }

/-- Outcome of the sweep's loop body on one fetched EMI: the document as left
in the store, the `$inc` applied to the parent loan's `penaltyAmount`
(`none` when `Loan.findByIdAndUpdate` was not called), and whether
`processedCount` was incremented. -/
structure SweepOut where
  emi : EMI
  inc : Option Int
  counted : Bool
  deriving DecidableEq

/-- Loop body of `processOverdueEMIs` (`src/unnamed/part_001` lines 77–109)
for one fetched EMI: compute `daysOverdue`; skip when `≤ 0`; otherwise assign
`status = 'overdue'`, recompute the penalty, and either save the repriced EMI
and `$inc` the loan (when the penalty changed), save the status flip alone
(when only the status assignment modified the document), or do nothing. -/
def sweepEMI (today : Int) (e : EMI) : SweepOut :=
  let d : Int := today - e.dueDate
  if d ≤ 0 then
    { emi := e, inc := none, counted := false }
  else
    let penaltyPerDay : Nat := cdiv e.principalAmount 2
    let newPenalty : Nat := penaltyPerDay * d.toNat
    let oldPenalty : Nat := e.penaltyAmount
    if newPenalty ≠ oldPenalty then
      { emi := { e with
                 status := EMIStatus.overdue
                 penaltyAmount := newPenalty
                 totalAmount := e.principalAmount + e.interestAmount + newPenalty }
        inc := some ((newPenalty : Int) - (oldPenalty : Int))
        counted := true }
    else if e.status ≠ EMIStatus.overdue then
      { emi := { e with status := EMIStatus.overdue }, inc := none, counted := true }
    else
      { emi := e, inc := none, counted := false }

/-- The sweep's fetch filter: `status ∈ {pending, overdue} ∧ dueDate < today`
(`EMI.find` at `src/unnamed/part_001` lines 70–73). -/
def inSweepScope (today : Int) (e : EMI) : Bool :=
  (e.status == EMIStatus.pending || e.status == EMIStatus.overdue)
    && decide (e.dueDate < today)

/-- `Loan.findByIdAndUpdate(lid, { $inc: { penaltyAmount: delta } })`. -/
def applyDelta (lid : Nat) (delta : Int) (ls : List Loan) : List Loan :=
  ls.map (fun l =>
    if l.loanId = lid then { l with penaltyAmount := l.penaltyAmount + delta } else l)

/-- Effect of the sweep loop on the loan store and the processed counter for
one EMI of the collection: fetched EMIs contribute their `$inc` (if any) and
their count; unfetched EMIs contribute nothing. -/
def sweepStep (today : Int) (acc : List Loan × Nat) (e : EMI) : List Loan × Nat :=
  if inSweepScope today e then
    let r := sweepEMI today e
    (match r.inc with
      | some dl => applyDelta e.loanId dl acc.1
      | none => acc.1,
     acc.2 + (if r.counted then 1 else 0))
  else acc

/-- The EMI document as left in the store by one sweep: processed by the loop
body when fetched, untouched otherwise. -/
def sweepFun (today : Int) (e : EMI) : EMI :=
  if inSweepScope today e then (sweepEMI today e).emi else e

/-- `processOverdueEMIs` (`src/unnamed/part_001` lines 64–114) against a
store, with the midnight-normalized current day `today` injected: fetch all
pending/overdue EMIs due strictly before `today`, run the loop body on each
(each iteration touches only its own EMI document, the parent loan's
`penaltyAmount`, and the counter), and return the new store and
`processedCount`. -/
def processOverdueEMIs (today : Int) (s : Store) : Store × Nat :=
  let fin := s.emis.foldl (sweepStep today) (s.loans, 0)
  ({ emis := s.emis.map (sweepFun today), loans := fin.1 }, fin.2)

/-- `PUT /api/admin/emis/:id/clear-overdue` (`src/unnamed/part_000` lines
583–606) on the fetched EMI and its parent loan: reject a paid EMI and an EMI
with no penalty (returning before any write), otherwise zero the penalty,
reset `totalAmount`, and floor the loan's penalty total at 0. -/
def clearOverdue (e : EMI) (l : Loan) : Except String (EMI × Loan) :=
  if e.status = EMIStatus.paid then
    Except.error "EMI already paid"
  else if e.penaltyAmount ≤ 0 then
    Except.error "No overdue charges to clear"
  else
    Except.ok
      ({ e with
         penaltyAmount := 0
         totalAmount := e.principalAmount + e.interestAmount },
       { l with
         penaltyAmount := max 0 (l.penaltyAmount - (e.penaltyAmount : Int)) })

/-- `status ∈ {pending, overdue}`: the fetch filter of the correction script
(`scripts/fix-overdues.js` lines 24–26). -/
def isUnpaid (e : EMI) : Bool :=
  e.status == EMIStatus.pending || e.status == EMIStatus.overdue

/-- `daysOverdue` for an EMI: whole days from its midnight-normalized due
date to the midnight-normalized `today`. -/
def daysOver (today : Int) (e : EMI) : Int := today - e.dueDate

/-- Per-EMI correction of `scripts/fix-overdues.js` (lines 35–82) on one
unpaid EMI: reset a not-actually-overdue EMI that carries overdue state back
to pending, and reprice an actually-overdue EMI whose status, penalty, or
total disagrees with the recomputation. -/
def fixEMI (today : Int) (e : EMI) : EMI :=
  let d : Int := daysOver today e
  if d ≤ 0 then
    if e.status = EMIStatus.overdue ∨ 0 < e.penaltyAmount then
      { e with
        status := EMIStatus.pending
        penaltyAmount := 0
        totalAmount := e.principalAmount + e.interestAmount }
    else e
  else
    let penaltyPerDay : Nat := cdiv e.principalAmount 2
    let correctPenalty : Nat := penaltyPerDay * d.toNat
    let correctTotal : Nat := e.principalAmount + e.interestAmount + correctPenalty
    if e.status ≠ EMIStatus.overdue ∨ e.penaltyAmount ≠ correctPenalty
        ∨ e.totalAmount ≠ correctTotal then
      { e with
        status := EMIStatus.overdue
        penaltyAmount := correctPenalty
        totalAmount := correctTotal }
    else e

/-- The amount one unpaid EMI contributes to the script's `loanPenaltyMap`:
the recomputed penalty when actually overdue, nothing otherwise. -/
def correctPenaltyOf (today : Int) (e : EMI) : Nat :=
  let d : Int := daysOver today e
  if d ≤ 0 then 0 else cdiv e.principalAmount 2 * d.toNat

/-- `loanPenaltyMap[lid]` at the end of the script's EMI loop: the sum of the
recomputed penalties of the loan's unpaid, actually-overdue EMIs. -/
def loanMapValue (today : Int) (lid : Nat) (emis : List EMI) : Nat :=
  ((emis.filter (fun e => isUnpaid e && e.loanId == lid)).map
    (correctPenaltyOf today)).sum

/-- The whole `run` of `scripts/fix-overdues.js` (lines 15–108) against a
store: correct every unpaid EMI, then set each loan that has at least one
unpaid EMI (exactly the keys of `loanPenaltyMap`) to its recomputed penalty
total. -/
def fixRun (today : Int) (s : Store) : Store :=
  { emis := s.emis.map (fun e => if isUnpaid e then fixEMI today e else e)
    loans := s.loans.map (fun l =>
      if s.emis.any (fun e => isUnpaid e && e.loanId == l.loanId) then
        { l with penaltyAmount := ((loanMapValue today l.loanId s.emis : Nat) : Int) }
      else l) }

/-- `PUT /api/admin/emis/:id/mark-paid` (`src/unnamed/part_000` lines
414–471) against a store, with the current instant `now` injected: reject a
missing or already-paid EMI; otherwise save the EMI as paid (clearing the
request flags), then credit the parent loan — `totalPaid += emi.totalAmount`,
`remainingBalance -= principal + interest` — and complete the loan exactly
when, after this save, it has no EMI left with `status ≠ paid`. -/
def markPaidEmi (now : Int) (e : EMI) : EMI :=
  { e with
    status := EMIStatus.paid
    paidAt := some now
    paymentRequested := false
    requestCanceled := false
    paidViaRequest := if e.paymentRequested then true else e.paidViaRequest }

/-- `emis'`: the EMI collection after the paid EMI's save. -/
def paidEmis (eid : Nat) (e' : EMI) (emis : List EMI) : List EMI :=
  emis.map (fun x => if x.emiId == eid then e' else x)

/-- `pendingCount`: `EMI.countDocuments({loanId, status: {$ne: 'paid'}})`. -/
def unpaidCountOf (lid : Nat) (emis : List EMI) : Nat :=
  (emis.filter (fun x => x.loanId == lid && x.status != EMIStatus.paid)).length

/-- The parent loan's credit on payment: `totalPaid += emi.totalAmount`,
`remainingBalance -= principal + interest`, and completion when no unpaid
EMI of the loan remains after the save. -/
def markPaidLoan (e : EMI) (emis' : List EMI) (l : Loan) : Loan :=
  { l with
    totalPaid := l.totalPaid + e.totalAmount
    remainingBalance :=
      l.remainingBalance - ((e.principalAmount : Int) + (e.interestAmount : Int))
    status := if unpaidCountOf l.loanId emis' = 0 then LoanStatus.completed else l.status }

def markPaid (now : Int) (eid : Nat) (s : Store) : Except String Store :=
  match s.emis.find? (fun e => e.emiId == eid) with
  | none => Except.error "EMI not found"
  | some e =>
    if e.status = EMIStatus.paid then
      Except.error "EMI already paid"
    else
      let e' : EMI := markPaidEmi now e
      let emis' : List EMI := paidEmis eid e' s.emis
      Except.ok
        { emis := emis'
          loans := s.loans.map (fun l =>
            if l.loanId == e.loanId then markPaidLoan e emis' l else l) }

/-- Sum of `principalAmount + interestAmount` over a list of EMIs. -/
def sumPI (emis : List EMI) : Nat :=
  (emis.map (fun e => e.principalAmount + e.interestAmount)).sum

/-- Sum of `penaltyAmount` over a list of EMIs. -/
def sumPenalty (emis : List EMI) : Nat :=
  (emis.map (fun e => e.penaltyAmount)).sum

def c1Emi : EMI :=
  { emiId := 1, loanId := 1, dayNumber := 1, principalAmount := 50,
    interestAmount := 10, penaltyAmount := 75, totalAmount := 60, dueDate := 7,
    status := EMIStatus.pending }

def c1Loan : Loan :=
  { loanId := 1, amount := 1000, totalDays := 10,
    status := LoanStatus.approved, penaltyAmount := 200 }

def c1Store : Store := { emis := [c1Emi], loans := [c1Loan] }

def w1Emi : EMI :=
  { emiId := 1, loanId := 1, dayNumber := 1, principalAmount := 50,
    interestAmount := 10, penaltyAmount := 0, totalAmount := 60, dueDate := 7,
    status := EMIStatus.pending }

def c5Emi : EMI :=
  { emiId := 1, loanId := 1, dayNumber := 1, principalAmount := 50,
    interestAmount := 10, penaltyAmount := 75, totalAmount := 999, dueDate := 7,
    status := EMIStatus.overdue }

def c5Loan : Loan :=
  { loanId := 1, amount := 1000, totalDays := 10,
    status := LoanStatus.approved, penaltyAmount := 200 }

def c5Store : Store := { emis := [c5Emi], loans := [c5Loan] }

def w5Emi : EMI :=
  { emiId := 1, loanId := 1, dayNumber := 1, principalAmount := 50,
    interestAmount := 10, penaltyAmount := 0, totalAmount := 60, dueDate := 7,
    status := EMIStatus.pending }

def w3Loan : Loan :=
  { loanId := 7, amount := 1000, totalDays := 3, status := LoanStatus.pending }

def c4Loan : Loan :=
  { loanId := 1, amount := 1000, totalDays := 3, status := LoanStatus.pending }

def c4Gen : GenResult := ((generateEMISchedule 0 c4Loan).toOption).getD ⟨[], c4Loan⟩

def w4Loan : Loan :=
  { loanId := 2, amount := 1000, totalDays := 3, status := LoanStatus.pending }

def w9Loan : Loan :=
  { loanId := 9, amount := 5000, totalDays := 0, status := LoanStatus.pending }

def w7Emi : EMI :=
  { emiId := 1, loanId := 1, dayNumber := 1, principalAmount := 50,
    interestAmount := 10, penaltyAmount := 75, totalAmount := 135, dueDate := 7,
    status := EMIStatus.overdue }

def w7Loan : Loan :=
  { loanId := 1, amount := 1000, totalDays := 10,
    status := LoanStatus.approved, penaltyAmount := 200 }

def w8Emi : EMI :=
  { emiId := 1, loanId := 1, dayNumber := 1, principalAmount := 50,
    interestAmount := 10, penaltyAmount := 75, totalAmount := 135, dueDate := 7,
    status := EMIStatus.overdue }

def w8Loan : Loan :=
  { loanId := 1, amount := 1000, totalDays := 10,
    status := LoanStatus.approved, penaltyAmount := 75 }

def c8Emi : EMI :=
  { emiId := 1, loanId := 1, dayNumber := 1, principalAmount := 50,
    interestAmount := 10, penaltyAmount := 75, totalAmount := 135, dueDate := 7,
    status := EMIStatus.overdue }

def c8Loan : Loan :=
  { loanId := 1, amount := 1000, totalDays := 10,
    status := LoanStatus.approved, penaltyAmount := 75 }

def c8Store : Store :=
  { emis := [{ c8Emi with penaltyAmount := 0, totalAmount := 60 }],
    loans := [{ c8Loan with penaltyAmount := 0 }] }

def c6Paid : EMI :=
  { emiId := 1, loanId := 1, dayNumber := 1, principalAmount := 50,
    interestAmount := 10, penaltyAmount := 25, totalAmount := 85, dueDate := 5,
    status := EMIStatus.paid }

def c6Over : EMI :=
  { emiId := 2, loanId := 1, dayNumber := 2, principalAmount := 50,
    interestAmount := 10, penaltyAmount := 75, totalAmount := 135, dueDate := 7,
    status := EMIStatus.overdue }

def c6Loan : Loan :=
  { loanId := 1, amount := 1000, totalDays := 2,
    status := LoanStatus.approved, penaltyAmount := 100 }

def c6Store : Store := { emis := [c6Paid, c6Over], loans := [c6Loan] }

def w6Emi : EMI :=
  { emiId := 1, loanId := 4, dayNumber := 1, principalAmount := 50,
    interestAmount := 10, penaltyAmount := 0, totalAmount := 60, dueDate := 7,
    status := EMIStatus.pending }

def w6Loan : Loan :=
  { loanId := 4, amount := 1000, totalDays := 1,
    status := LoanStatus.approved, penaltyAmount := 40 }

def w6Store : Store := { emis := [w6Emi], loans := [w6Loan] }

def w10Paid : EMI :=
  { emiId := 1, loanId := 1, dayNumber := 1, principalAmount := 100,
    interestAmount := 20, penaltyAmount := 0, totalAmount := 120, dueDate := 1,
    status := EMIStatus.paid }

def w10Over : EMI :=
  { emiId := 2, loanId := 1, dayNumber := 2, principalAmount := 100,
    interestAmount := 20, penaltyAmount := 5, totalAmount := 125, dueDate := 2,
    status := EMIStatus.overdue }

def w10Loan : Loan :=
  { loanId := 1, amount := 200, totalDays := 2, status := LoanStatus.approved,
    totalPaid := 120, remainingBalance := 120, penaltyAmount := 5 }

def w10Store : Store := { emis := [w10Paid, w10Over], loans := [w10Loan] }

/-! ### Lemmas and claim theorems -/

/-! ### Helper lemmas -/
lemma cdiv_lower (a b : Nat) (hb : 1 ≤ b) : a ≤ b * cdiv a b := by
  unfold cdiv
  have h := Nat.div_add_mod (a + b - 1) b
  have hm : (a + b - 1) % b < b := Nat.mod_lt _ hb
  set q := (a + b - 1) / b with hq
  set r := (a + b - 1) % b with hr
  set t := b * q with ht
  omega

lemma cdiv_upper (a b : Nat) (_hb : 1 ≤ b) : b * cdiv a b ≤ a + b - 1 := by
  unfold cdiv
  have h := Nat.div_add_mod (a + b - 1) b
  set q := (a + b - 1) / b with hq
  set r := (a + b - 1) % b with hr
  set t := b * q with ht
  omega

lemma cdiv_pos (a b : Nat) (ha : 1 ≤ a) (hb : 1 ≤ b) : 1 ≤ cdiv a b := by
  have h := cdiv_lower a b hb
  rcases Nat.eq_zero_or_pos (cdiv a b) with h0 | h1
  · rw [h0, Nat.mul_zero] at h
    omega
  · exact h1

lemma getD_map_lt {α : Type} (l : List α) (g : α → α) (d : α) (j : Nat)
    (hj : j < l.length) : (l.map g).getD j d = g (l.getD j d) := by
  induction l generalizing j with
  | nil => simp at hj
  | cons x xs ih =>
    cases j with
    | zero => simp
    | succ k =>
      simp only [List.map_cons, List.getD_cons_succ]
      exact ih k (by simpa using hj)

lemma getD_map_range (n k : Nat) (fn : Nat → EMI) (hk : k < n) :
    ((List.range n).map fn).getD k default = fn k := by
  rw [List.getD_eq_getElem?_getD, List.getElem?_map, List.getElem?_range hk]
  rfl

lemma sum_map_const_range {α : Type} (n : Nat) (c : Nat) (fn : Nat → α) (pc : α → Nat)
    (h : ∀ k, pc (fn k) = c) :
    (((List.range n).map fn).map pc).sum = n * c := by
  induction n with
  | zero => simp
  | succ m ih =>
    rw [List.range_succ, List.map_append, List.map_append, List.sum_append, ih]
    simp [h, Nat.succ_mul]

lemma inSweepScope_iff (today : Int) (e : EMI) :
    inSweepScope today e = true ↔
      ((e.status = EMIStatus.pending ∨ e.status = EMIStatus.overdue) ∧ e.dueDate < today) := by
  simp [inSweepScope, Bool.or_eq_true, Bool.and_eq_true, beq_iff_eq, decide_eq_true_eq]

lemma sweepEMI_overdue (today : Int) (e : EMI) (h : e.dueDate < today) :
    (sweepEMI today e).emi.status = EMIStatus.overdue ∧
    (sweepEMI today e).emi.penaltyAmount
      = cdiv e.principalAmount 2 * (today - e.dueDate).toNat ∧
    (sweepEMI today e).emi.principalAmount = e.principalAmount ∧
    (sweepEMI today e).emi.interestAmount = e.interestAmount ∧
    (sweepEMI today e).emi.dueDate = e.dueDate := by
  have hd : ¬ (today - e.dueDate ≤ 0) := by omega
  unfold sweepEMI
  rw [if_neg hd]
  by_cases h1 : cdiv e.principalAmount 2 * (today - e.dueDate).toNat ≠ e.penaltyAmount
  · rw [if_pos h1]
    exact ⟨rfl, rfl, rfl, rfl, rfl⟩
  · rw [if_neg h1]
    push_neg at h1
    by_cases h2 : e.status ≠ EMIStatus.overdue
    · rw [if_pos h2]
      simp [h1]
    · rw [if_neg h2]
      push_neg at h2
      simp [h1, h2]

lemma sweepEMI_stable (today : Int) (e : EMI) (h : e.dueDate < today)
    (hs : e.status = EMIStatus.overdue)
    (hp : e.penaltyAmount = cdiv e.principalAmount 2 * (today - e.dueDate).toNat) :
    sweepEMI today e = { emi := e, inc := none, counted := false } := by
  have hd : ¬ (today - e.dueDate ≤ 0) := by omega
  have h1 : ¬ (cdiv e.principalAmount 2 * (today - e.dueDate).toNat ≠ e.penaltyAmount) := by
    rw [hp]
    exact fun hc => hc rfl
  have h2 : ¬ (e.status ≠ EMIStatus.overdue) := fun hc => hc hs
  unfold sweepEMI
  rw [if_neg hd, if_neg h1, if_neg h2]

lemma inSweepScope_sweepFun (today : Int) (e : EMI) :
    inSweepScope today (sweepFun today e) = inSweepScope today e := by
  by_cases hs : inSweepScope today e = true
  · have h := (inSweepScope_iff today e).mp hs
    have ho := sweepEMI_overdue today e h.2
    rw [hs, sweepFun, if_pos hs]
    rw [inSweepScope_iff]
    exact ⟨Or.inr ho.1, by rw [ho.2.2.2.2]; exact h.2⟩
  · rw [sweepFun, if_neg hs]

lemma sweepEMI_sweepFun (today : Int) (e : EMI) (hs : inSweepScope today e = true) :
    sweepEMI today (sweepFun today e)
      = { emi := sweepFun today e, inc := none, counted := false } := by
  have h := (inSweepScope_iff today e).mp hs
  have ho := sweepEMI_overdue today e h.2
  rw [sweepFun, if_pos hs]
  exact sweepEMI_stable today _ (by rw [ho.2.2.2.2]; exact h.2) ho.1
    (by rw [ho.2.1, ho.2.2.1, ho.2.2.2.2])

lemma sweepFun_idem (today : Int) (e : EMI) :
    sweepFun today (sweepFun today e) = sweepFun today e := by
  by_cases hs : inSweepScope today e = true
  · have h1 : inSweepScope today (sweepFun today e) = true := by
      rw [inSweepScope_sweepFun]
      exact hs
    conv_lhs => rw [sweepFun, if_pos h1]
    rw [sweepEMI_sweepFun today e hs]
  · have he : sweepFun today e = e := by rw [sweepFun, if_neg hs]
    rw [he, he]

lemma sweepStep_sweepFun (today : Int) (acc : List Loan × Nat) (e : EMI) :
    sweepStep today acc (sweepFun today e) = acc := by
  by_cases hs : inSweepScope today e = true
  · have h1 : inSweepScope today (sweepFun today e) = true := by
      rw [inSweepScope_sweepFun]
      exact hs
    unfold sweepStep
    rw [if_pos h1, sweepEMI_sweepFun today e hs]
    simp
  · have he : sweepFun today e = e := by rw [sweepFun, if_neg hs]
    rw [he]
    unfold sweepStep
    rw [if_neg hs]

lemma map_sweepFun_idem (today : Int) (l : List EMI) :
    (l.map (sweepFun today)).map (sweepFun today) = l.map (sweepFun today) := by
  induction l with
  | nil => rfl
  | cons x xs ih => simp [sweepFun_idem, ih]

lemma foldl_sweepStep_mapped (today : Int) (l : List EMI) (acc : List Loan × Nat) :
    (l.map (sweepFun today)).foldl (sweepStep today) acc = acc := by
  induction l generalizing acc with
  | nil => rfl
  | cons x xs ih => simp [sweepStep_sweepFun, ih]

/-- C2: the accrual sweep is idempotent: a second run with the same `today`
returns the store of the first run unchanged and a processed count of 0. -/
theorem claim2_sweep_idempotent (today : Int) (s : Store) :
    processOverdueEMIs today (processOverdueEMIs today s).1
      = ((processOverdueEMIs today s).1, 0) := by
  unfold processOverdueEMIs
  rw [map_sweepFun_idem, foldl_sweepStep_mapped]

lemma sweepEMI_total (today : Int) (e : EMI) (h : e.dueDate < today)
    (hinv : e.totalAmount = e.principalAmount + e.interestAmount + e.penaltyAmount) :
    (sweepEMI today e).emi.totalAmount
      = e.principalAmount + e.interestAmount + (sweepEMI today e).emi.penaltyAmount := by
  have hd : ¬ (today - e.dueDate ≤ 0) := by omega
  unfold sweepEMI
  rw [if_neg hd]
  by_cases h1 : cdiv e.principalAmount 2 * (today - e.dueDate).toNat ≠ e.penaltyAmount
  · rw [if_pos h1]
  · rw [if_neg h1]
    push_neg at h1
    by_cases h2 : e.status ≠ EMIStatus.overdue
    · rw [if_pos h2]
      simpa [h1] using hinv
    · rw [if_neg h2]
      simpa [h1] using hinv

/-- C1 (amended): for an EMI with status pending or overdue whose stored
`totalAmount` agrees with `principal + interest + penalty` before the sweep,
the sweep leaves it unchanged when its due date is today or later, and
otherwise leaves it overdue with `penaltyAmount = ceil(principal/2) *
daysOverdue` and `totalAmount = principal + interest + penaltyAmount`;
the sweep acts on every stored EMI exactly through `sweepFun`. -/
theorem claim1_sweep_repricing (today : Int) (s : Store) (e : EMI)
    (hunpaid : e.status = EMIStatus.pending ∨ e.status = EMIStatus.overdue)
    (hinv : e.totalAmount = e.principalAmount + e.interestAmount + e.penaltyAmount) :
    (processOverdueEMIs today s).1.emis = s.emis.map (sweepFun today) ∧
    (today ≤ e.dueDate → sweepFun today e = e) ∧
    (e.dueDate < today →
      (sweepFun today e).status = EMIStatus.overdue ∧
      (sweepFun today e).penaltyAmount
        = cdiv e.principalAmount 2 * (today - e.dueDate).toNat ∧
      (sweepFun today e).totalAmount
        = e.principalAmount + e.interestAmount + (sweepFun today e).penaltyAmount) := by
  refine ⟨rfl, ?_, ?_⟩
  · intro hle
    have hs : ¬ (inSweepScope today e = true) := by
      rw [inSweepScope_iff]
      intro hc
      omega
    rw [sweepFun, if_neg hs]
  · intro hlt
    have hs : inSweepScope today e = true := by
      rw [inSweepScope_iff]
      exact ⟨hunpaid, hlt⟩
    have ho := sweepEMI_overdue today e hlt
    have ht := sweepEMI_total today e hlt hinv
    rw [sweepFun, if_pos hs]
    exact ⟨ho.1, ho.2.1, ht⟩

/-- C1 counterexample: a pending EMI fetched with daysOverdue = 3 whose
penalty already equals `ceil(principal/2) * 3` but whose `totalAmount` is
stale is left by the sweep with that stale `totalAmount`, so after the sweep
`totalAmount ≠ principal + interest + penaltyAmount`, contrary to the
claim. -/
theorem claim1_counterexample :
    (c1Emi.status = EMIStatus.pending ∧ c1Emi.dueDate < 10
      ∧ (10 : Int) - c1Emi.dueDate = 3) ∧
    ((processOverdueEMIs 10 c1Store).1.emis.getD 0 default).status = EMIStatus.overdue ∧
    ((processOverdueEMIs 10 c1Store).1.emis.getD 0 default).penaltyAmount
      = cdiv c1Emi.principalAmount 2 * 3 ∧
    ¬ ((processOverdueEMIs 10 c1Store).1.emis.getD 0 default).totalAmount
      = c1Emi.principalAmount + c1Emi.interestAmount
        + ((processOverdueEMIs 10 c1Store).1.emis.getD 0 default).penaltyAmount := by
  decide

/-- Witness for C1 (amended) at a freshly generated EMI due 3 days ago. -/
theorem claim1_sweep_repricing_witness :
    ((w1Emi.status = EMIStatus.pending ∨ w1Emi.status = EMIStatus.overdue) ∧
      w1Emi.totalAmount
        = w1Emi.principalAmount + w1Emi.interestAmount + w1Emi.penaltyAmount ∧
      w1Emi.dueDate < 10) ∧
    ((sweepFun 10 w1Emi).status = EMIStatus.overdue ∧
      (sweepFun 10 w1Emi).penaltyAmount
        = cdiv w1Emi.principalAmount 2 * ((10 : Int) - w1Emi.dueDate).toNat ∧
      (sweepFun 10 w1Emi).totalAmount
        = w1Emi.principalAmount + w1Emi.interestAmount + (sweepFun 10 w1Emi).penaltyAmount) :=
  ⟨⟨by decide, by decide, by decide⟩,
    (claim1_sweep_repricing 10 { emis := [w1Emi], loans := [] } w1Emi
      (by decide) (by decide)).2.2 (by decide)⟩

/-- C5 (amended): for a fetched EMI with daysOverdue ≥ 1 the sweep repairs
status, penalty, and total, persists, `$inc`s the parent loan, and counts the
EMI exactly when the recomputed penalty differs from the stored one; when the
penalty already agrees but the status is pending it only flips the status
(counting it, not touching amounts or the loan); when status and penalty both
already agree it does nothing — even if `totalAmount` disagrees. -/
theorem claim5_sweep_branches (today : Int) (e : EMI) (hd : e.dueDate < today) :
    (cdiv e.principalAmount 2 * (today - e.dueDate).toNat ≠ e.penaltyAmount →
      sweepEMI today e =
        { emi := { e with
                   status := EMIStatus.overdue
                   penaltyAmount := cdiv e.principalAmount 2 * (today - e.dueDate).toNat
                   totalAmount := e.principalAmount + e.interestAmount
                     + cdiv e.principalAmount 2 * (today - e.dueDate).toNat }
          inc := some (((cdiv e.principalAmount 2 * (today - e.dueDate).toNat : Nat) : Int)
            - (e.penaltyAmount : Int))
          counted := true }) ∧
    (cdiv e.principalAmount 2 * (today - e.dueDate).toNat = e.penaltyAmount →
      e.status ≠ EMIStatus.overdue →
      sweepEMI today e =
        { emi := { e with status := EMIStatus.overdue }, inc := none, counted := true }) ∧
    (cdiv e.principalAmount 2 * (today - e.dueDate).toNat = e.penaltyAmount →
      e.status = EMIStatus.overdue →
      sweepEMI today e = { emi := e, inc := none, counted := false }) := by
  have hdle : ¬ (today - e.dueDate ≤ 0) := by omega
  refine ⟨?_, ?_, ?_⟩
  · intro h1
    unfold sweepEMI
    rw [if_neg hdle, if_pos h1]
  · intro h1 h2
    unfold sweepEMI
    rw [if_neg hdle, if_neg (by rw [h1]; exact fun hc => hc rfl), if_pos h2]
  · intro h1 h2
    exact sweepEMI_stable today e hd h2 h1.symm

/-- C5 counterexample: an overdue EMI with daysOverdue = 3 whose status and
penalty are already correct but whose `totalAmount` (999) disagrees with
`principal + interest + penalty` is left untouched by the sweep and is not
counted as processed, contrary to the claim's three-way repair condition. -/
theorem claim5_counterexample :
    c5Emi.status = EMIStatus.overdue ∧
    (10 : Int) - c5Emi.dueDate = 3 ∧
    c5Emi.penaltyAmount = cdiv c5Emi.principalAmount 2 * 3 ∧
    c5Emi.totalAmount
      ≠ c5Emi.principalAmount + c5Emi.interestAmount + c5Emi.penaltyAmount ∧
    processOverdueEMIs 10 c5Store = (c5Store, 0) :=
  ⟨by decide, by decide, by decide, by decide, rfl⟩

/-- Witness for C5 (amended): the repricing branch at a pending EMI due 3
days ago. -/
theorem claim5_sweep_branches_witness :
    (w5Emi.dueDate < 10 ∧
      cdiv w5Emi.principalAmount 2 * ((10 : Int) - w5Emi.dueDate).toNat
        ≠ w5Emi.penaltyAmount) ∧
    sweepEMI 10 w5Emi =
      { emi := { w5Emi with
                 status := EMIStatus.overdue
                 penaltyAmount := cdiv w5Emi.principalAmount 2 * ((10 : Int) - w5Emi.dueDate).toNat
                 totalAmount := w5Emi.principalAmount + w5Emi.interestAmount
                   + cdiv w5Emi.principalAmount 2 * ((10 : Int) - w5Emi.dueDate).toNat }
        inc := some (((cdiv w5Emi.principalAmount 2 * ((10 : Int) - w5Emi.dueDate).toNat : Nat) : Int)
          - (w5Emi.penaltyAmount : Int))
        counted := true } :=
  ⟨⟨by decide, by decide⟩, (claim5_sweep_branches 10 w5Emi (by decide)).1 (by decide)⟩

/-- C3: for a loan with totalDays ≥ 1 and amount ≥ 0, schedule generation
creates exactly totalDays pending EMIs, EMI k carrying dayNumber k, dueDate
startDate + (k−1) with startDate = tomorrow (never the approval day), zero
penalty, principal `ceil(amount/totalDays)`, interest
`ceil((amount·0.20)/totalDays)` and total = principal + interest, and saves
the loan with that startDate, endDate = startDate + (totalDays−1), and
approvedAt set. -/
theorem claim3_schedule_generation (today : Int) (loan : Loan)
    (h1 : 1 ≤ loan.totalDays) (h2 : 0 ≤ loan.amount) :
    ∃ r, generateEMISchedule today loan = Except.ok r ∧
      r.emis.length = loan.totalDays ∧
      (∀ k, k < loan.totalDays →
        (r.emis.getD k default).dayNumber = k + 1 ∧
        (r.emis.getD k default).dueDate = (today + 1) + (k : Int) ∧
        (r.emis.getD k default).status = EMIStatus.pending ∧
        (r.emis.getD k default).penaltyAmount = 0 ∧
        (r.emis.getD k default).principalAmount
          = cdiv loan.amount.toNat loan.totalDays ∧
        (r.emis.getD k default).interestAmount
          = cdiv loan.amount.toNat (5 * loan.totalDays) ∧
        (r.emis.getD k default).totalAmount
          = cdiv loan.amount.toNat loan.totalDays
            + cdiv loan.amount.toNat (5 * loan.totalDays)) ∧
      r.loan.startDate = some (today + 1) ∧
      r.loan.startDate ≠ some today ∧
      r.loan.endDate = some ((today + 1) + ((loan.totalDays : Int) - 1)) ∧
      r.loan.approvedAt = some today := by
  have hg : ¬ (loan.totalDays < 1 ∨ loan.amount < 0) := by
    push_neg
    exact ⟨by omega, h2⟩
  unfold generateEMISchedule
  rw [if_neg hg]
  refine ⟨_, rfl, ?_, ?_, rfl, ?_, ?_, rfl⟩
  · simp
  · intro k hk
    rw [getD_map_range _ _ _ hk]
    exact ⟨rfl, rfl, rfl, rfl, rfl, rfl, rfl⟩
  · simp
  · have hc : ((loan.totalDays - 1 : Nat) : Int) = (loan.totalDays : Int) - 1 := by
      omega
    rw [hc]

/-- Witness for C3 at amount 1000, totalDays 3, approved on day 100. -/
theorem claim3_schedule_generation_witness :
    (1 ≤ w3Loan.totalDays ∧ 0 ≤ w3Loan.amount) ∧
    (∃ r, generateEMISchedule 100 w3Loan = Except.ok r ∧
      r.emis.length = w3Loan.totalDays ∧
      (∀ k, k < w3Loan.totalDays →
        (r.emis.getD k default).dayNumber = k + 1 ∧
        (r.emis.getD k default).dueDate = ((100 : Int) + 1) + (k : Int) ∧
        (r.emis.getD k default).status = EMIStatus.pending ∧
        (r.emis.getD k default).penaltyAmount = 0 ∧
        (r.emis.getD k default).principalAmount
          = cdiv w3Loan.amount.toNat w3Loan.totalDays ∧
        (r.emis.getD k default).interestAmount
          = cdiv w3Loan.amount.toNat (5 * w3Loan.totalDays) ∧
        (r.emis.getD k default).totalAmount
          = cdiv w3Loan.amount.toNat w3Loan.totalDays
            + cdiv w3Loan.amount.toNat (5 * w3Loan.totalDays)) ∧
      r.loan.startDate = some ((100 : Int) + 1) ∧
      r.loan.startDate ≠ some (100 : Int) ∧
      r.loan.endDate = some (((100 : Int) + 1) + ((w3Loan.totalDays : Int) - 1)) ∧
      r.loan.approvedAt = some (100 : Int)) :=
  ⟨⟨by decide, by decide⟩, claim3_schedule_generation 100 w3Loan (by decide) (by decide)⟩

/-- C4 (amended): the scheduled principal+interest total is at least
1.20 × amount, and the ceiling-rounding surplus is at most
(totalDays − 1) + (totalDays − 1/5), i.e. `5·Σ ≤ 6·amount + 10·totalDays − 6`
(in fifths of a currency unit), not `totalDays − 1` currency units. -/
theorem claim4_sum_bounds (today : Int) (loan : Loan)
    (h1 : 1 ≤ loan.totalDays) (h2 : 0 ≤ loan.amount) :
    ∃ r, generateEMISchedule today loan = Except.ok r ∧
      6 * loan.amount.toNat ≤ 5 * sumPI r.emis ∧
      5 * sumPI r.emis ≤ 6 * loan.amount.toNat + 10 * loan.totalDays - 6 := by
  have hg : ¬ (loan.totalDays < 1 ∨ loan.amount < 0) := by
    push_neg
    exact ⟨by omega, h2⟩
  unfold generateEMISchedule
  rw [if_neg hg]
  refine ⟨_, rfl, ?_⟩
  have hsum : sumPI ((List.range loan.totalDays).map (fun k =>
      ({ emiId := k + 1
         loanId := loan.loanId
         dayNumber := k + 1
         principalAmount := cdiv loan.amount.toNat loan.totalDays
         interestAmount := cdiv loan.amount.toNat (5 * loan.totalDays)
         penaltyAmount := 0
         totalAmount := cdiv loan.amount.toNat loan.totalDays
           + cdiv loan.amount.toNat (5 * loan.totalDays)
         dueDate := today + 1 + (k : Int)
         status := EMIStatus.pending } : EMI)))
      = loan.totalDays * (cdiv loan.amount.toNat loan.totalDays
          + cdiv loan.amount.toNat (5 * loan.totalDays)) := by
    unfold sumPI
    exact sum_map_const_range _ _ _ _ (fun k => rfl)
  rw [hsum]
  have h5 : 1 ≤ 5 * loan.totalDays := by omega
  have l1 := cdiv_lower loan.amount.toNat loan.totalDays h1
  have u1 := cdiv_upper loan.amount.toNat loan.totalDays h1
  have l2 := cdiv_lower loan.amount.toNat (5 * loan.totalDays) h5
  have u2 := cdiv_upper loan.amount.toNat (5 * loan.totalDays) h5
  have hring : 5 * (loan.totalDays * (cdiv loan.amount.toNat loan.totalDays
      + cdiv loan.amount.toNat (5 * loan.totalDays)))
      = 5 * (loan.totalDays * cdiv loan.amount.toNat loan.totalDays)
        + 5 * loan.totalDays * cdiv loan.amount.toNat (5 * loan.totalDays) := by
    ring
  rw [hring]
  set u := loan.totalDays * cdiv loan.amount.toNat loan.totalDays with hu
  set v := 5 * loan.totalDays * cdiv loan.amount.toNat (5 * loan.totalDays) with hv
  omega

/-- C4 counterexample: amount 1000, totalDays 3 yields EMIs summing to 1203
in principal+interest, a surplus of 3 currency units over 1.20 × 1000 = 1200,
exceeding the claimed bound totalDays − 1 = 2 (as fifths:
5·1203 = 6015 > 6·1000 + 5·(3−1) = 6010). -/
theorem claim4_counterexample :
    generateEMISchedule 0 c4Loan = Except.ok c4Gen ∧
    sumPI c4Gen.emis = 1203 ∧
    ¬ (5 * sumPI c4Gen.emis ≤ 6 * c4Loan.amount.toNat + 5 * (c4Loan.totalDays - 1)) :=
  ⟨rfl, by decide, by decide⟩

/-- Witness for C4 (amended) at amount 1000, totalDays 3. -/
theorem claim4_sum_bounds_witness :
    (1 ≤ w4Loan.totalDays ∧ 0 ≤ w4Loan.amount) ∧
    (∃ r, generateEMISchedule 0 w4Loan = Except.ok r ∧
      6 * w4Loan.amount.toNat ≤ 5 * sumPI r.emis ∧
      5 * sumPI r.emis ≤ 6 * w4Loan.amount.toNat + 10 * w4Loan.totalDays - 6) :=
  ⟨⟨by decide, by decide⟩, claim4_sum_bounds 0 w4Loan (by decide) (by decide)⟩

/-- C9: with the schema validation modelled from the spec, schedule
generation fails with a ValidationError whenever totalDays < 1 or
amount < 0, and by construction performs no writes in that case. -/
theorem claim9_validation (today : Int) (loan : Loan)
    (h : loan.totalDays < 1 ∨ loan.amount < 0) :
    generateEMISchedule today loan = Except.error "ValidationError" := by
  unfold generateEMISchedule
  rw [if_pos h]

/-- Witness for C9 at totalDays = 0. -/
theorem claim9_validation_witness :
    (w9Loan.totalDays < 1 ∨ w9Loan.amount < 0) ∧
    generateEMISchedule 0 w9Loan = Except.error "ValidationError" :=
  ⟨Or.inl (by decide), claim9_validation 0 w9Loan (Or.inl (by decide))⟩

/-- C7: the waiver succeeds exactly when the EMI is unpaid and carries a
positive penalty; a rejected request performs no writes (the handler returns
before any save), and a successful one zeroes the EMI's penalty, resets its
total to principal + interest, leaves its status as-is, and floors the
loan's penalty total at 0 after subtracting the waived amount. -/
theorem claim7_waiver (e : EMI) (l : Loan) :
    ((e.status = EMIStatus.paid ∨ e.penaltyAmount = 0) →
      ∃ msg, clearOverdue e l = Except.error msg) ∧
    (e.status ≠ EMIStatus.paid → 0 < e.penaltyAmount →
      clearOverdue e l = Except.ok
        ({ e with
           penaltyAmount := 0
           totalAmount := e.principalAmount + e.interestAmount },
         { l with
           penaltyAmount := max 0 (l.penaltyAmount - (e.penaltyAmount : Int)) })) := by
  constructor
  · intro h
    unfold clearOverdue
    by_cases h1 : e.status = EMIStatus.paid
    · rw [if_pos h1]
      exact ⟨_, rfl⟩
    · rw [if_neg h1]
      rcases h with h | h
      · exact absurd h h1
      · rw [if_pos (by omega)]
        exact ⟨_, rfl⟩
  · intro h1 h2
    unfold clearOverdue
    rw [if_neg h1, if_neg (by omega)]

/-- Witness for C7 at the spec's example: waiving penalty 75 while the loan
carries 200 leaves the EMI at 0 and the loan at 125. -/
theorem claim7_waiver_witness :
    (w7Emi.status ≠ EMIStatus.paid ∧ 0 < w7Emi.penaltyAmount) ∧
    clearOverdue w7Emi w7Loan = Except.ok
      ({ w7Emi with
         penaltyAmount := 0
         totalAmount := w7Emi.principalAmount + w7Emi.interestAmount },
       { w7Loan with
         penaltyAmount := max 0 (w7Loan.penaltyAmount - (w7Emi.penaltyAmount : Int)) }) ∧
    max 0 (w7Loan.penaltyAmount - (w7Emi.penaltyAmount : Int)) = 125 :=
  ⟨⟨by decide, by decide⟩,
    (claim7_waiver w7Emi w7Loan).2 (by decide) (by decide), by decide⟩

/-- C8 (amended): a waiver zeroes the EMI's penalty at the moment it is
applied, but the waiver is not sticky: the next accrual sweep run with
daysOverdue ≥ 1 recomputes `penaltyAmount = ceil(principal/2) · daysOverdue`
for the waived EMI, which is nonzero whenever its principal is. -/
theorem claim8_waiver_not_sticky (today : Int) (e : EMI) (l : Loan)
    (e' : EMI) (l' : Loan)
    (hw : clearOverdue e l = Except.ok (e', l'))
    (hd : e.dueDate < today) :
    e'.penaltyAmount = 0 ∧
    (sweepFun today e').penaltyAmount
      = cdiv e.principalAmount 2 * (today - e.dueDate).toNat ∧
    (0 < e.principalAmount → (sweepFun today e').penaltyAmount ≠ 0) := by
  unfold clearOverdue at hw
  by_cases h1 : e.status = EMIStatus.paid
  · rw [if_pos h1] at hw
    exact absurd hw (by simp)
  · rw [if_neg h1] at hw
    by_cases h2 : e.penaltyAmount ≤ 0
    · rw [if_pos h2] at hw
      exact absurd hw (by simp)
    · rw [if_neg h2] at hw
      have hinj := Except.ok.inj hw
      rw [Prod.ext_iff] at hinj
      obtain ⟨he', hl'⟩ := hinj
      subst he'
      have hstat : e.status = EMIStatus.pending ∨ e.status = EMIStatus.overdue := by
        cases hs : e.status
        · exact Or.inl rfl
        · exact Or.inr rfl
        · exact absurd hs h1
      have hs : inSweepScope today
          ({ e with
             penaltyAmount := 0
             totalAmount := e.principalAmount + e.interestAmount } : EMI) = true := by
        rw [inSweepScope_iff]
        exact ⟨hstat, hd⟩
      have ho := sweepEMI_overdue today
        ({ e with
           penaltyAmount := 0
           totalAmount := e.principalAmount + e.interestAmount } : EMI) hd
      refine ⟨rfl, ?_, ?_⟩
      · rw [sweepFun, if_pos hs]
        exact ho.2.1
      · intro hp
        rw [sweepFun, if_pos hs, ho.2.1]
        show cdiv e.principalAmount 2 * (today - e.dueDate).toNat ≠ 0
        have hc := cdiv_pos e.principalAmount 2 hp (by omega)
        have ht : 1 ≤ (today - e.dueDate).toNat := by omega
        have hm := Nat.mul_le_mul hc ht
        omega

/-- Witness for C8 (amended): the waived EMI due 3 days before `today = 10`
gets penalty `ceil(50/2)·3 = 75` back at the next sweep. -/
theorem claim8_waiver_not_sticky_witness :
    (clearOverdue w8Emi w8Loan = Except.ok
      ({ w8Emi with penaltyAmount := 0, totalAmount := 60 },
       { w8Loan with penaltyAmount := 0 }) ∧ w8Emi.dueDate < 10) ∧
    (({ w8Emi with penaltyAmount := 0, totalAmount := 60 } : EMI).penaltyAmount = 0 ∧
      (sweepFun 10 ({ w8Emi with penaltyAmount := 0, totalAmount := 60 } : EMI)).penaltyAmount
        = cdiv w8Emi.principalAmount 2 * ((10 : Int) - w8Emi.dueDate).toNat ∧
      (0 < w8Emi.principalAmount →
        (sweepFun 10 ({ w8Emi with penaltyAmount := 0, totalAmount := 60 } : EMI)).penaltyAmount
          ≠ 0)) :=
  ⟨⟨rfl, by decide⟩,
    claim8_waiver_not_sticky 10 w8Emi w8Loan
      ({ w8Emi with penaltyAmount := 0, totalAmount := 60 })
      ({ w8Loan with penaltyAmount := 0 }) rfl (by decide)⟩

/-- C8 counterexample: after waiving the penalty of an overdue EMI (due 3
days before `today = 10`), the next accrual sweep sets its penalty back to
75 instead of leaving it at 0 as the claim states. -/
theorem claim8_counterexample :
    clearOverdue c8Emi c8Loan = Except.ok
      ({ c8Emi with penaltyAmount := 0, totalAmount := 60 },
       { c8Loan with penaltyAmount := 0 }) ∧
    ((processOverdueEMIs 10 c8Store).1.emis.getD 0 default).penaltyAmount = 75 ∧
    (75 : Nat) ≠ 0 :=
  ⟨rfl, by decide, by decide⟩

lemma fixEMI_penalty (today : Int) (e : EMI) :
    (fixEMI today e).penaltyAmount = correctPenaltyOf today e := by
  unfold fixEMI correctPenaltyOf
  by_cases hd : daysOver today e ≤ 0
  · rw [if_pos hd, if_pos hd]
    by_cases hc : e.status = EMIStatus.overdue ∨ 0 < e.penaltyAmount
    · rw [if_pos hc]
    · rw [if_neg hc]
      push_neg at hc
      omega
  · rw [if_neg hd, if_neg hd]
    by_cases hc : e.status ≠ EMIStatus.overdue
        ∨ e.penaltyAmount ≠ cdiv e.principalAmount 2 * (daysOver today e).toNat
        ∨ e.totalAmount ≠ e.principalAmount + e.interestAmount
            + cdiv e.principalAmount 2 * (daysOver today e).toNat
    · rw [if_pos hc]
    · rw [if_neg hc]
      push_neg at hc
      exact hc.2.1

lemma fixEMI_loanId (today : Int) (e : EMI) :
    (fixEMI today e).loanId = e.loanId := by
  unfold fixEMI
  by_cases hd : daysOver today e ≤ 0
  · rw [if_pos hd]
    by_cases hc : e.status = EMIStatus.overdue ∨ 0 < e.penaltyAmount
    · rw [if_pos hc]
    · rw [if_neg hc]
  · rw [if_neg hd]
    by_cases hc : e.status ≠ EMIStatus.overdue
        ∨ e.penaltyAmount ≠ cdiv e.principalAmount 2 * (daysOver today e).toNat
        ∨ e.totalAmount ≠ e.principalAmount + e.interestAmount
            + cdiv e.principalAmount 2 * (daysOver today e).toNat
    · rw [if_pos hc]
    · rw [if_neg hc]

lemma fixEMI_unpaid (today : Int) (e : EMI) (h : isUnpaid e = true) :
    isUnpaid (fixEMI today e) = true := by
  unfold fixEMI
  by_cases hd : daysOver today e ≤ 0
  · rw [if_pos hd]
    by_cases hc : e.status = EMIStatus.overdue ∨ 0 < e.penaltyAmount
    · rw [if_pos hc]
      rfl
    · rw [if_neg hc]
      exact h
  · rw [if_neg hd]
    by_cases hc : e.status ≠ EMIStatus.overdue
        ∨ e.penaltyAmount ≠ cdiv e.principalAmount 2 * (daysOver today e).toNat
        ∨ e.totalAmount ≠ e.principalAmount + e.interestAmount
            + cdiv e.principalAmount 2 * (daysOver today e).toNat
    · rw [if_pos hc]
      rfl
    · rw [if_neg hc]
      exact h

lemma sumPenalty_cons (e : EMI) (l : List EMI) :
    sumPenalty (e :: l) = e.penaltyAmount + sumPenalty l := by
  simp [sumPenalty]

lemma fixRun_penalty_sum (today : Int) (lid : Nat) (es : List EMI) :
    sumPenalty ((es.map (fun e => if isUnpaid e then fixEMI today e else e)).filter
        (fun x => isUnpaid x && x.loanId == lid))
      = loanMapValue today lid es := by
  induction es with
  | nil => rfl
  | cons e rest ih =>
    unfold loanMapValue at ih ⊢
    simp only [List.map_cons, List.filter_cons]
    by_cases hu : isUnpaid e = true
    · rw [if_pos hu]
      by_cases hl : e.loanId = lid
      · have h1 : (isUnpaid (fixEMI today e) && (fixEMI today e).loanId == lid) = true := by
          rw [fixEMI_unpaid today e hu, fixEMI_loanId]
          simp [hl]
        have h2 : (isUnpaid e && e.loanId == lid) = true := by
          simp [hu, hl]
        rw [h1, h2]
        simp only [if_true]
        rw [sumPenalty_cons, List.map_cons, List.sum_cons, fixEMI_penalty, ih]
      · have h1 : (isUnpaid (fixEMI today e) && (fixEMI today e).loanId == lid) = false := by
          rw [fixEMI_loanId]
          simp [hl]
        have h2 : (isUnpaid e && e.loanId == lid) = false := by
          simp [hl]
        rw [h1, h2]
        simp only [Bool.false_eq_true, if_false]
        exact ih
    · rw [if_neg hu]
      have hu' : isUnpaid e = false := by
        revert hu
        cases isUnpaid e <;> simp
      have h1 : (isUnpaid e && e.loanId == lid) = false := by
        simp [hu']
      rw [h1]
      simp only [Bool.false_eq_true, if_false]
      exact ih

/-- C6 (amended): the correction pass resets every unpaid EMI with
daysOverdue ≤ 0 that carries overdue state back to pending with zero penalty
and total = principal + interest, reprices every unpaid EMI with
daysOverdue ≥ 1 to overdue with penalty `ceil(principal/2) · daysOverdue`
and the matching total, and afterwards each loan that has an unpaid EMI
carries as `penaltyAmount` the exact sum of `penaltyAmount` over its
*unpaid* EMIs — paid EMIs' penalties are excluded from the reconciliation. -/
theorem claim6_correction_run (today : Int) (s : Store) (j : Nat)
    (hj : j < s.loans.length)
    (hex : ∃ x ∈ s.emis, isUnpaid x = true
      ∧ x.loanId = (s.loans.getD j default).loanId) :
    (∀ e : EMI, isUnpaid e = true →
      ((daysOver today e ≤ 0 →
          (e.status = EMIStatus.overdue ∨ 0 < e.penaltyAmount) →
          fixEMI today e = { e with
            status := EMIStatus.pending
            penaltyAmount := 0
            totalAmount := e.principalAmount + e.interestAmount }) ∧
        (0 < daysOver today e →
          (fixEMI today e).status = EMIStatus.overdue ∧
          (fixEMI today e).penaltyAmount
            = cdiv e.principalAmount 2 * (daysOver today e).toNat ∧
          (fixEMI today e).totalAmount
            = e.principalAmount + e.interestAmount
              + cdiv e.principalAmount 2 * (daysOver today e).toNat))) ∧
    (fixRun today s).emis
      = s.emis.map (fun e => if isUnpaid e then fixEMI today e else e) ∧
    ((fixRun today s).loans.getD j default).penaltyAmount
      = ((sumPenalty (((fixRun today s).emis).filter
          (fun x => isUnpaid x
            && x.loanId == (s.loans.getD j default).loanId)) : Nat) : Int) := by
  refine ⟨?_, rfl, ?_⟩
  · intro e _
    constructor
    · intro hd hc
      unfold fixEMI
      rw [if_pos hd, if_pos hc]
    · intro hd
      unfold fixEMI
      rw [if_neg (by omega)]
      by_cases hc : e.status ≠ EMIStatus.overdue
          ∨ e.penaltyAmount ≠ cdiv e.principalAmount 2 * (daysOver today e).toNat
          ∨ e.totalAmount ≠ e.principalAmount + e.interestAmount
              + cdiv e.principalAmount 2 * (daysOver today e).toNat
      · rw [if_pos hc]
        exact ⟨rfl, rfl, rfl⟩
      · rw [if_neg hc]
        push_neg at hc
        exact ⟨hc.1, hc.2.1, hc.2.2⟩
  · obtain ⟨x, hx, hxu, hxl⟩ := hex
    have hany : (s.emis.any (fun e => isUnpaid e
        && e.loanId == (s.loans.getD j default).loanId)) = true := by
      rw [List.any_eq_true]
      exact ⟨x, hx, by simp [hxu, hxl]⟩
    have hloans : (fixRun today s).loans = s.loans.map (fun l =>
        if s.emis.any (fun e => isUnpaid e && e.loanId == l.loanId) then
          { l with penaltyAmount := ((loanMapValue today l.loanId s.emis : Nat) : Int) }
        else l) := rfl
    rw [hloans, getD_map_lt _ _ _ _ hj]
    simp only [if_pos hany]
    show ((loanMapValue today (s.loans.getD j default).loanId s.emis : Nat) : Int) = _
    rw [← fixRun_penalty_sum today (s.loans.getD j default).loanId s.emis]
    rfl

/-- C6 counterexample: a loan whose paid EMI still carries penalty 25 and
whose overdue EMI carries 75 is reconciled by the correction pass to
`penaltyAmount = 75` — the sum over its unpaid EMIs — not to the claimed sum
over all of its EMIs including paid ones, which is 100. -/
theorem claim6_counterexample :
    c6Paid.loanId = c6Loan.loanId ∧ c6Over.loanId = c6Loan.loanId ∧
    ((fixRun 10 c6Store).loans.getD 0 default).penaltyAmount = 75 ∧
    sumPenalty (fixRun 10 c6Store).emis = 100 ∧
    ((75 : Int) ≠ ((100 : Nat) : Int)) :=
  ⟨by decide, by decide, by decide, by decide, by decide⟩

/-- Witness for C6 (amended) at a one-loan store with one unpaid EMI. -/
theorem claim6_correction_run_witness :
    (0 < w6Store.loans.length ∧
      (∃ x ∈ w6Store.emis, isUnpaid x = true
        ∧ x.loanId = (w6Store.loans.getD 0 default).loanId)) ∧
    ((fixRun 10 w6Store).loans.getD 0 default).penaltyAmount
      = ((sumPenalty (((fixRun 10 w6Store).emis).filter
          (fun x => isUnpaid x
            && x.loanId == (w6Store.loans.getD 0 default).loanId)) : Nat) : Int) :=
  ⟨⟨by decide, ⟨w6Emi, by decide, by decide, by decide⟩⟩,
    (claim6_correction_run 10 w6Store 0 (by decide)
      ⟨w6Emi, by decide, by decide, by decide⟩).2.2⟩

/-- C10: marking an unpaid EMI paid leaves both the EMI's and the parent
loan's `penaltyAmount` unchanged, adds the EMI's `totalAmount` (penalty
included) to `loan.totalPaid`, subtracts only principal + interest from
`loan.remainingBalance`, and completes the loan exactly when no EMI of the
loan remains unpaid after this payment. -/
theorem claim10_mark_paid (now : Int) (eid : Nat) (s : Store) (e : EMI) (j : Nat)
    (hfind : s.emis.find? (fun x => x.emiId == eid) = some e)
    (he : e.status ≠ EMIStatus.paid)
    (hj : j < s.loans.length)
    (hlid : (s.loans.getD j default).loanId = e.loanId)
    (hls : (s.loans.getD j default).status ≠ LoanStatus.completed) :
    ∃ s', markPaid now eid s = Except.ok s' ∧
      (∀ x ∈ s'.emis, x.emiId = eid →
        x.penaltyAmount = e.penaltyAmount ∧ x.status = EMIStatus.paid) ∧
      (s'.loans.getD j default).penaltyAmount
        = (s.loans.getD j default).penaltyAmount ∧
      (s'.loans.getD j default).totalPaid
        = (s.loans.getD j default).totalPaid + e.totalAmount ∧
      (s'.loans.getD j default).remainingBalance
        = (s.loans.getD j default).remainingBalance
          - ((e.principalAmount : Int) + (e.interestAmount : Int)) ∧
      ((s'.loans.getD j default).status = LoanStatus.completed ↔
        ∀ x ∈ s'.emis, x.loanId = e.loanId → x.status = EMIStatus.paid) := by
  unfold markPaid
  rw [hfind]
  simp only [if_neg he]
  refine ⟨_, rfl, ?_, ?_⟩
  · intro x hx hxe
    unfold paidEmis at hx
    rw [List.mem_map] at hx
    obtain ⟨y, hy, rfl⟩ := hx
    by_cases hye : (y.emiId == eid) = true
    · rw [if_pos hye]
      exact ⟨rfl, rfl⟩
    · rw [if_neg hye] at hxe
      exact absurd (beq_iff_eq.mpr hxe) hye
  · have hcond : ((s.loans.getD j default).loanId == e.loanId) = true :=
      beq_iff_eq.mpr hlid
    have hmap : ((s.loans.map (fun l =>
        if l.loanId == e.loanId then
          markPaidLoan e (paidEmis eid (markPaidEmi now e) s.emis) l
        else l)).getD j default)
        = markPaidLoan e (paidEmis eid (markPaidEmi now e) s.emis)
            (s.loans.getD j default) := by
      rw [getD_map_lt _ _ _ _ hj, if_pos hcond]
    rw [hmap]
    refine ⟨rfl, rfl, rfl, ?_⟩
    show (if unpaidCountOf (s.loans.getD j default).loanId
        (paidEmis eid (markPaidEmi now e) s.emis) = 0 then LoanStatus.completed
      else (s.loans.getD j default).status) = LoanStatus.completed ↔ _
    by_cases hpc : unpaidCountOf (s.loans.getD j default).loanId
        (paidEmis eid (markPaidEmi now e) s.emis) = 0
    · rw [if_pos hpc]
      unfold unpaidCountOf at hpc
      rw [List.length_eq_zero, List.filter_eq_nil_iff] at hpc
      constructor
      · intro _ x hx hxl
        have := hpc x hx
        rw [hlid] at this
        simp only [hxl, beq_self_eq_true, Bool.true_and, Bool.not_eq_true,
          bne_eq_false_iff_eq] at this
        exact this
      · intro _
        rfl
    · rw [if_neg hpc]
      refine iff_of_false hls ?_
      intro hall
      unfold unpaidCountOf at hpc
      have hpos : 0 < ((paidEmis eid (markPaidEmi now e) s.emis).filter
          (fun x => x.loanId == (s.loans.getD j default).loanId
            && x.status != EMIStatus.paid)).length := Nat.pos_of_ne_zero hpc
      obtain ⟨x, hxmem⟩ := List.exists_mem_of_length_pos hpos
      rw [List.mem_filter] at hxmem
      obtain ⟨hxin, hxp⟩ := hxmem
      rw [Bool.and_eq_true, beq_iff_eq, hlid] at hxp
      have := hall x hxin hxp.1
      rw [this] at hxp
      simp at hxp

/-- Witness for C10: paying the last unpaid (overdue, penalty-carrying) EMI
of a two-EMI loan. -/
theorem claim10_mark_paid_witness :
    (w10Store.emis.find? (fun x => x.emiId == 2) = some w10Over ∧
      w10Over.status ≠ EMIStatus.paid ∧
      (w10Store.loans.getD 0 default).loanId = w10Over.loanId ∧
      (w10Store.loans.getD 0 default).status ≠ LoanStatus.completed) ∧
    (∃ s', markPaid 9 2 w10Store = Except.ok s' ∧
      (∀ x ∈ s'.emis, x.emiId = 2 →
        x.penaltyAmount = w10Over.penaltyAmount ∧ x.status = EMIStatus.paid) ∧
      (s'.loans.getD 0 default).penaltyAmount
        = (w10Store.loans.getD 0 default).penaltyAmount ∧
      (s'.loans.getD 0 default).totalPaid
        = (w10Store.loans.getD 0 default).totalPaid + w10Over.totalAmount ∧
      (s'.loans.getD 0 default).remainingBalance
        = (w10Store.loans.getD 0 default).remainingBalance
          - ((w10Over.principalAmount : Int) + (w10Over.interestAmount : Int)) ∧
      ((s'.loans.getD 0 default).status = LoanStatus.completed ↔
        ∀ x ∈ s'.emis, x.loanId = w10Over.loanId → x.status = EMIStatus.paid)) :=
  ⟨⟨by decide, by decide, by decide, by decide⟩,
    claim10_mark_paid 9 2 w10Store w10Over 0 (by decide) (by decide)
      (by decide) (by decide) (by decide)⟩

end LoanApp
